import Mathlib

/-!
Verification development for the cdot-RMM core pipeline: rule evaluation
(ingestion-service), alert persistence and notification fan-out
(alert-service), and event-driven workflow execution with audit logging
(automation-service).  Each service is shallowly embedded as pure Lean
functions; stateful endpoints are modelled by explicit state passing and
effect traces.  Metric and threshold values (JS numbers / SQL DOUBLE
PRECISION) are modelled as rationals; JSON-absent and JSON-null values are
both modelled as Option.none where the source treats them identically.
-/

/-- Row of the alert_rules table, as read by evaluateRules in the
ingestion service (columns id, metric, threshold, comparison, suggestion,
description; suggestion and description are nullable). -/
structure AlertRule where
  id : Nat
  metric : String
  threshold : Rat
  comparison : String
  suggestion : Option String := none
  description : Option String := none
deriving DecidableEq, Repr

/-- Payload sent by sendAlert to the alert service for a detected breach. -/
structure AlertIntent where
  device_id : String
  metric : String
  value : Rat
  threshold : Rat
  rule_id : Nat
  suggestion : String
  description : String
deriving DecidableEq, Repr

/-- Translation of getDefaultSuggestion from the ingestion service:
per-metric default remediation text with a generic fallback. -/
def getDefaultSuggestion (metric : String) : String :=
  match metric with
  | "cpu" => "Investigate high CPU usage by reviewing running processes and workloads."
  | "memory" => "Analyse memory consumption and optimise applications to reduce usage."
  | "disk" => "Check disk utilisation; free up space or expand storage as required."
  | "latency" => "Investigate network latency; verify connectivity and reduce load."
  | _ => "Investigate the alert condition and take appropriate action."

/-- The breach flag computed inside the loop of evaluateRules: it starts
false and each of the two if statements may set it to true. -/
def breachOf (rule : AlertRule) (value : Rat) : Bool :=
  let breach := false
  let breach := if rule.comparison == "gt" && decide (value > rule.threshold) then true else breach
  let breach := if rule.comparison == "lt" && decide (value < rule.threshold) then true else breach
  breach

/-- The alert payload built in the breach branch of evaluateRules:
suggestion falls back (via the nullish coalescing operator) to
getDefaultSuggestion, description to a synthesized string. -/
def mkIntent (deviceId : String) (rule : AlertRule) (value : Rat) : AlertIntent :=
  { device_id := deviceId
    metric := rule.metric
    value := value
    threshold := rule.threshold
    rule_id := rule.id
    suggestion := rule.suggestion.getD (getDefaultSuggestion rule.metric)
    description := rule.description.getD
      ("Metric " ++ rule.metric ++ " " ++ rule.comparison ++ " threshold " ++ toString rule.threshold) }

/-- Translation of evaluateRules from the ingestion service.  The metrics
object is a partial map from metric name to value; a lookup that is
undefined or null is Option.none and the rule is skipped (continue).  The
list of sendAlert payloads produced by the loop is returned. -/
def evaluateRules (deviceId : String) (metrics : String → Option Rat) :
    List AlertRule → List AlertIntent
  | [] => []
  | rule :: rest =>
    match metrics rule.metric with
    | none => evaluateRules deviceId metrics rest
    | some value =>
      if breachOf rule value then
        mkIntent deviceId rule value :: evaluateRules deviceId metrics rest
      else
        evaluateRules deviceId metrics rest

/-- Specification-side restatement of rule evaluation, following the spec
wording: one breach entry for every rule whose metric is present in the
sample and whose comparison holds (value > threshold for gt, value <
threshold for lt), and no entry for rules referencing an absent metric. -/
def evaluateRulesSpec (deviceId : String) (metrics : String → Option Rat)
    (rules : List AlertRule) : List AlertIntent :=
  rules.filterMap (fun rule =>
    match metrics rule.metric with
    | none => none
    | some value =>
      if (rule.comparison = "gt" ∧ value > rule.threshold)
          ∨ (rule.comparison = "lt" ∧ value < rule.threshold) then
        some (mkIntent deviceId rule value)
      else
        none)

theorem breachOf_eq_true (rule : AlertRule) (value : Rat) :
    breachOf rule value = true
      ↔ (rule.comparison = "gt" ∧ value > rule.threshold)
        ∨ (rule.comparison = "lt" ∧ value < rule.threshold) := by
  unfold breachOf
  constructor
  · intro h
    split at h
    · rename_i hgt
      simp only [Bool.and_eq_true, beq_iff_eq, decide_eq_true_eq] at hgt
      exact Or.inl hgt
    · split at h
      · rename_i hlt
        simp only [Bool.and_eq_true, beq_iff_eq, decide_eq_true_eq] at hlt
        exact Or.inr hlt
      · exact absurd h (by simp)
  · intro h
    rcases h with ⟨hc, hv⟩ | ⟨hc, hv⟩ <;> simp [hc, hv]

/-- C1: rule evaluation emits exactly one alert intent for each rule whose
metric is present in the metrics map and whose comparison holds, and
nothing for a rule whose metric is absent; an empty rule set yields no
alerts. -/
theorem evaluateRules_eq_spec (deviceId : String) (metrics : String → Option Rat)
    (rules : List AlertRule) :
    evaluateRules deviceId metrics rules = evaluateRulesSpec deviceId metrics rules
      ∧ evaluateRules deviceId metrics [] = [] := by
  refine ⟨?_, rfl⟩
  induction rules with
  | nil => rfl
  | cons rule rest ih =>
    unfold evaluateRules evaluateRulesSpec
    cases hm : metrics rule.metric with
    | none => simpa [hm, evaluateRulesSpec] using ih
    | some value =>
      by_cases hb : breachOf rule value = true
      · have hs := (breachOf_eq_true rule value).mp hb
        simp [hm, hb, hs, evaluateRulesSpec] at ih ⊢
        exact ih
      · have hs := (breachOf_eq_true rule value).not.mp hb
        simp [hm, hb, hs, evaluateRulesSpec] at ih ⊢
        exact ih

/-- C8: every emitted alert intent resolves its suggestion from the rule
when non-null, else from the per-metric default lookup, and its
description from the rule when non-null, else from the synthesized
string; metrics outside the lookup table get the generic fallback. -/
theorem evaluateRules_resolution (deviceId : String) (metrics : String → Option Rat)
    (rules : List AlertRule) (intent : AlertIntent)
    (h : intent ∈ evaluateRules deviceId metrics rules) :
    (∃ rule ∈ rules,
        metrics rule.metric = some intent.value
        ∧ intent.suggestion = rule.suggestion.getD (getDefaultSuggestion rule.metric)
        ∧ intent.description = rule.description.getD
            ("Metric " ++ rule.metric ++ " " ++ rule.comparison ++ " threshold "
              ++ toString rule.threshold))
      ∧ ∀ m : String, m ≠ "cpu" → m ≠ "memory" → m ≠ "disk" → m ≠ "latency" →
          getDefaultSuggestion m = "Investigate the alert condition and take appropriate action." := by
  constructor
  · induction rules with
    | nil => cases h
    | cons rule rest ih =>
      unfold evaluateRules at h
      split at h
      · obtain ⟨r, hr, hprop⟩ := ih h
        exact ⟨r, List.mem_cons_of_mem _ hr, hprop⟩
      · rename_i value hm
        split at h
        · rcases List.mem_cons.mp h with heq | htail
          · refine ⟨rule, List.mem_cons_self _ _, ?_, ?_, ?_⟩
            · rw [heq]; exact hm
            · rw [heq]; rfl
            · rw [heq]; rfl
          · obtain ⟨r, hr, hprop⟩ := ih htail
            exact ⟨r, List.mem_cons_of_mem _ hr, hprop⟩
        · obtain ⟨r, hr, hprop⟩ := ih h
          exact ⟨r, List.mem_cons_of_mem _ hr, hprop⟩
  · intro m h1 h2 h3 h4
    unfold getDefaultSuggestion
    split <;> simp_all

/-- Witness for evaluateRules_resolution: a cpu rule with no stored
suggestion or description, breached by a sample with cpu = 92. -/
theorem evaluateRules_resolution_witness :
    (mkIntent "d1" { id := 1, metric := "cpu", threshold := 85, comparison := "gt" } 92
        ∈ evaluateRules "d1" (fun s => if s = "cpu" then some 92 else none)
            [{ id := 1, metric := "cpu", threshold := 85, comparison := "gt" }])
      ∧ ((∃ rule ∈ [({ id := 1, metric := "cpu", threshold := 85, comparison := "gt" } : AlertRule)],
            (fun s => if s = "cpu" then some (92 : Rat) else none) rule.metric
                = some (mkIntent "d1" { id := 1, metric := "cpu", threshold := 85, comparison := "gt" } 92).value
            ∧ (mkIntent "d1" { id := 1, metric := "cpu", threshold := 85, comparison := "gt" } 92).suggestion
                = rule.suggestion.getD (getDefaultSuggestion rule.metric)
            ∧ (mkIntent "d1" { id := 1, metric := "cpu", threshold := 85, comparison := "gt" } 92).description
                = rule.description.getD
                    ("Metric " ++ rule.metric ++ " " ++ rule.comparison ++ " threshold "
                      ++ toString rule.threshold))
          ∧ ∀ m : String, m ≠ "cpu" → m ≠ "memory" → m ≠ "disk" → m ≠ "latency" →
              getDefaultSuggestion m = "Investigate the alert condition and take appropriate action.") :=
  ⟨by decide,
    evaluateRules_resolution "d1" (fun s => if s = "cpu" then some 92 else none)
      [{ id := 1, metric := "cpu", threshold := 85, comparison := "gt" }]
      (mkIntent "d1" { id := 1, metric := "cpu", threshold := 85, comparison := "gt" } 92)
      (by decide)⟩

/-- Event submitted to the automation service.  The body carries at least
event_type (the empty string models a missing or empty field, which JS
truthiness rejects identically); device_id and any further payload fields
are kept so the audit log can record the payload verbatim. -/
structure Event where
  event_type : String
  device_id : Option String := none
  extra : List (String × String) := []
deriving DecidableEq, Repr

/-- Parameters document stored with a workflow action; only the fields the
action handlers read are modelled. -/
structure ActionParams where
  script : Option String := none
  service : Option String := none
  message : Option String := none
deriving DecidableEq, Repr

/-- Row of the workflows table (id SERIAL, name, event_type, conditions
JSONB nullable; the conditions document is opaque to this service). -/
structure WorkflowRow where
  id : Nat
  name : String
  event_type : String
  conditions : Option String := none
deriving DecidableEq, Repr

/-- Row of the workflow_actions table (id SERIAL, workflow_id foreign key,
action_type, parameters JSONB nullable). -/
structure ActionRow where
  id : Nat
  workflow_id : Nat
  action_type : String
  parameters : Option ActionParams := none
deriving DecidableEq, Repr

/-- Structured outcome returned by doAction for one executed action. -/
structure ActionResult where
  action : String
  status : String
  message : String
deriving DecidableEq, Repr

/-- Row of the workflow_logs table appended by a non-test execution. -/
structure LogRow where
  workflow_id : Nat
  event_data : Event
  result : List ActionResult
deriving DecidableEq, Repr

/-- Persistent state of the automation service: the three tables it owns.
The workflows and workflow_actions lists are kept in insertion order (ids
are assigned by an ascending SERIAL sequence). -/
structure AutoState where
  workflows : List WorkflowRow
  actions : List ActionRow
  logs : List LogRow
deriving DecidableEq, Repr

/-- JS truthiness fallback for strings: s or default, where null,
undefined and the empty string all select the default. -/
def jsOr (o : Option String) (d : String) : String :=
  match o with
  | some s => if s = "" then d else s
  | none => d

/-- Translation of doAction from the automation service: a switch on
action_type returning a structured outcome; the default branch returns
status unknown.  The testMode argument is accepted and ignored, as in the
source. -/
def doAction (action : ActionRow) (_event : Event) (_testMode : Bool) : ActionResult :=
  let type := action.action_type
  let params := action.parameters.getD {}
  match type with
  | "run_script" =>
    { action := type, status := "success", message := "script " ++ jsOr params.script "executed" }
  | "restart_service" =>
    { action := type, status := "success", message := "service " ++ jsOr params.service "restarted" }
  | "isolate_device" =>
    { action := type, status := "success", message := "device isolated" }
  | "notify" =>
    { action := type, status := "success", message := "notification sent" }
  | "send_notification" =>
    { action := type, status := "success", message := "notification sent" }
  | "create_ticket" =>
    { action := type, status := "success", message := "ticket created" }
  | _ =>
    { action := type, status := "unknown", message := "unknown action" }

/-- The closed set of action kinds the switch in doAction recognizes. -/
def recognizedKinds : List String :=
  ["run_script", "restart_service", "isolate_device", "notify", "send_notification", "create_ticket"]

/-- Ordering used by the SQL query in executeWorkflow (ORDER BY id ASC). -/
def byId (a b : ActionRow) : Prop := a.id ≤ b.id

instance : DecidableRel byId := fun a b => inferInstanceAs (Decidable (a.id ≤ b.id))

/-- The action rows the SELECT in executeWorkflow returns: those with the
given workflow_id, ordered by id ascending. -/
def fetchActions (acts : List ActionRow) (workflowId : Nat) : List ActionRow :=
  (acts.filter (fun a => a.workflow_id == workflowId)).insertionSort byId

/-- Translation of executeWorkflow: fetch the actions of the workflow,
run doAction on each in order collecting the results, and unless in test
mode append one workflow_logs row with the workflow id, the event payload
and the collected results. -/
def executeWorkflow (st : AutoState) (workflowId : Nat) (event : Event) (testMode : Bool) :
    List ActionResult × AutoState :=
  let actions := fetchActions st.actions workflowId
  let results := actions.map (fun a => doAction a event testMode)
  if testMode then
    (results, st)
  else
    (results,
      { st with logs := st.logs ++ [{ workflow_id := workflowId, event_data := event, result := results }] })

/-- Translation of evaluateConditions: conditions are not evaluated in
this implementation, every workflow of matching event type runs. -/
def evaluateConditions (_conditions : Option String) (_event : Event) : Bool := true

/-- The for loop of the POST /api/events handler: run every workflow in
the fetched list whose conditions evaluate to true, collecting a
(workflow_id, result) entry per execution and threading the state. -/
def processWorkflows (ev : Event) : AutoState → List WorkflowRow →
    List (Nat × List ActionResult) × AutoState
  | st, [] => ([], st)
  | st, w :: ws =>
    if evaluateConditions w.conditions ev then
      let step := executeWorkflow st w.id ev false
      let rest := processWorkflows ev step.2 ws
      ((w.id, step.1) :: rest.1, rest.2)
    else
      processWorkflows ev st ws

/-- Response body of POST /api/events: processed count and per-workflow
results. -/
structure SubmitResp where
  processed : Nat
  results : List (Nat × List ActionResult)
deriving DecidableEq, Repr

/-- Translation of the POST /api/events handler: reject a missing or
empty event_type, otherwise select the workflows whose event_type equals
the event's and execute each.  The error case leaves the state unchanged. -/
def submitEvent (st : AutoState) (ev : Event) : Except String (SubmitResp × AutoState) :=
  if ev.event_type = "" then
    Except.error "event_type is required"
  else
    let matching := st.workflows.filter (fun w => w.event_type == ev.event_type)
    let run := processWorkflows ev st matching
    Except.ok ({ processed := run.1.length, results := run.1 }, run.2)

/-- Translation of the POST /api/workflows/test handler: reject a falsy
workflow_id (absent or 0), otherwise execute the workflow in test mode on
the supplied test_event (or an empty default) and return the result list. -/
def testWorkflowEndpoint (st : AutoState) (workflowId : Option Nat) (testEvent : Option Event) :
    Except String (List ActionResult) × AutoState :=
  match workflowId with
  | none => (Except.error "workflow_id is required", st)
  | some 0 => (Except.error "workflow_id is required", st)
  | some wid =>
    let run := executeWorkflow st wid (testEvent.getD { event_type := "" }) true
    (Except.ok run.1, run.2)

theorem doAction_status (a : ActionRow) (ev : Event) (tm : Bool) :
    (doAction a ev tm).status
      = (if a.action_type ∈ recognizedKinds then "success" else "unknown") := by
  unfold doAction
  by_cases h : a.action_type ∈ recognizedKinds
  · rw [if_pos h]
    simp only [recognizedKinds, List.mem_cons, List.not_mem_nil, or_false] at h
    rcases h with h | h | h | h | h | h <;> simp only [h]
  · rw [if_neg h]
    simp only [recognizedKinds, List.mem_cons, List.not_mem_nil, or_false, not_or] at h
    obtain ⟨h1, h2, h3, h4, h5, h6⟩ := h
    dsimp only
    split <;> simp_all

/-- C9: the outcome status of doAction is exactly success for recognized
action kinds and exactly unknown otherwise; no execution path produces a
failure status. -/
theorem doAction_status_dichotomy (a : ActionRow) (ev : Event) (tm : Bool) :
    (doAction a ev tm).status
        = (if a.action_type ∈ recognizedKinds then "success" else "unknown")
      ∧ ((doAction a ev tm).status = "success" ∨ (doAction a ev tm).status = "unknown") := by
  refine ⟨doAction_status a ev tm, ?_⟩
  rw [doAction_status a ev tm]
  by_cases h : a.action_type ∈ recognizedKinds <;> simp [h]

theorem fetchActions_of_sorted {acts : List ActionRow} (wid : Nat)
    (h : List.Sorted byId acts) :
    fetchActions acts wid = acts.filter (fun a => a.workflow_id == wid) :=
  List.Sorted.insertionSort_eq (List.Pairwise.filter _ h)

/-- C3: executing a workflow maps doAction over its stored actions in
insertion order (ids are assigned ascending, so ORDER BY id ASC returns
insertion order): the outcome list has one entry per action, in order,
and no outcome aborts or reorders the rest. -/
theorem executeWorkflow_ordered (st : AutoState) (wid : Nat) (ev : Event) (tm : Bool)
    (h : List.Sorted byId st.actions) :
    (executeWorkflow st wid ev tm).1
        = (st.actions.filter (fun a => a.workflow_id == wid)).map (fun a => doAction a ev tm)
      ∧ (executeWorkflow st wid ev tm).1.length
        = (st.actions.filter (fun a => a.workflow_id == wid)).length := by
  have hf := fetchActions_of_sorted wid h
  have h1 : (executeWorkflow st wid ev tm).1
      = (st.actions.filter (fun a => a.workflow_id == wid)).map (fun a => doAction a ev tm) := by
    unfold executeWorkflow
    cases tm <;> simp [hf]
  exact ⟨h1, by rw [h1, List.length_map]⟩

/-- Witness for executeWorkflow_ordered: a two-action workflow whose
second action kind is unrecognized still yields both outcomes in order. -/
theorem executeWorkflow_ordered_witness :
    List.Sorted byId
        [{ id := 1, workflow_id := 7, action_type := "notify" },
         { id := 2, workflow_id := 7, action_type := "reboot_universe" }]
      ∧ ((executeWorkflow
            { workflows := [], actions :=
                [{ id := 1, workflow_id := 7, action_type := "notify" },
                 { id := 2, workflow_id := 7, action_type := "reboot_universe" }],
              logs := [] } 7 { event_type := "disk_full" } false).1
          = (([{ id := 1, workflow_id := 7, action_type := "notify" },
               { id := 2, workflow_id := 7, action_type := "reboot_universe" }] :
                List ActionRow).filter (fun a => a.workflow_id == 7)).map
              (fun a => doAction a { event_type := "disk_full" } false)
        ∧ (executeWorkflow
            { workflows := [], actions :=
                [{ id := 1, workflow_id := 7, action_type := "notify" },
                 { id := 2, workflow_id := 7, action_type := "reboot_universe" }],
              logs := [] } 7 { event_type := "disk_full" } false).1.length
          = (([{ id := 1, workflow_id := 7, action_type := "notify" },
               { id := 2, workflow_id := 7, action_type := "reboot_universe" }] :
                List ActionRow).filter (fun a => a.workflow_id == 7)).length) :=
  ⟨by decide,
    executeWorkflow_ordered
      { workflows := [], actions :=
          [{ id := 1, workflow_id := 7, action_type := "notify" },
           { id := 2, workflow_id := 7, action_type := "reboot_universe" }],
        logs := [] } 7 { event_type := "disk_full" } false (by decide)⟩

/-- C4: a non-test execution appends exactly one log row carrying the
workflow id, the event verbatim and the ordered outcome list; a test
execution writes nothing and returns the same outcome list; running the
test endpoint twice from the same state gives identical results. -/
theorem executeWorkflow_audit (st : AutoState) (wid : Nat) (ev : Event)
    (oid : Option Nat) (tev : Option Event) :
    (executeWorkflow st wid ev true).1 = (executeWorkflow st wid ev false).1
      ∧ (executeWorkflow st wid ev true).2 = st
      ∧ (executeWorkflow st wid ev false).2
        = { st with logs := st.logs ++
              [{ workflow_id := wid, event_data := ev,
                 result := (executeWorkflow st wid ev false).1 }] }
      ∧ testWorkflowEndpoint (testWorkflowEndpoint st oid tev).2 oid tev
        = testWorkflowEndpoint st oid tev := by
  refine ⟨rfl, rfl, rfl, ?_⟩
  match oid with
  | none => rfl
  | some 0 => rfl
  | some (n + 1) => rfl

/-- C7: an action of unrecognized kind yields an unknown-status outcome
(its outcome is still in the result list), the remaining actions still
execute (one outcome per fetched action), and the non-test log row is
still written. -/
theorem unknownAction_isolated (st : AutoState) (wid : Nat) (ev : Event) (a : ActionRow)
    (ha : a ∈ fetchActions st.actions wid) (h : a.action_type ∉ recognizedKinds) :
    (doAction a ev false).status = "unknown"
      ∧ doAction a ev false ∈ (executeWorkflow st wid ev false).1
      ∧ (executeWorkflow st wid ev false).1.length = (fetchActions st.actions wid).length
      ∧ (executeWorkflow st wid ev false).2.logs
        = st.logs ++ [{ workflow_id := wid, event_data := ev,
                        result := (executeWorkflow st wid ev false).1 }] := by
  refine ⟨?_, ?_, ?_, rfl⟩
  · rw [doAction_status]
    rw [if_neg h]
  · exact List.mem_map_of_mem _ ha
  · exact List.length_map _ _

/-- Witness for unknownAction_isolated: the unknown kind reboot_universe
followed by a notify action; both outcomes are produced and logged. -/
theorem unknownAction_isolated_witness :
    ({ id := 1, workflow_id := 7, action_type := "reboot_universe" }
        ∈ fetchActions
            [{ id := 1, workflow_id := 7, action_type := "reboot_universe" },
             { id := 2, workflow_id := 7, action_type := "notify" }] 7)
      ∧ ("reboot_universe" ∉ recognizedKinds)
      ∧ ((doAction { id := 1, workflow_id := 7, action_type := "reboot_universe" }
            { event_type := "disk_full" } false).status = "unknown"
          ∧ doAction { id := 1, workflow_id := 7, action_type := "reboot_universe" }
              { event_type := "disk_full" } false
            ∈ (executeWorkflow
                { workflows := [], actions :=
                    [{ id := 1, workflow_id := 7, action_type := "reboot_universe" },
                     { id := 2, workflow_id := 7, action_type := "notify" }],
                  logs := [] } 7 { event_type := "disk_full" } false).1
          ∧ (executeWorkflow
                { workflows := [], actions :=
                    [{ id := 1, workflow_id := 7, action_type := "reboot_universe" },
                     { id := 2, workflow_id := 7, action_type := "notify" }],
                  logs := [] } 7 { event_type := "disk_full" } false).1.length
            = (fetchActions
                [{ id := 1, workflow_id := 7, action_type := "reboot_universe" },
                 { id := 2, workflow_id := 7, action_type := "notify" }] 7).length
          ∧ (executeWorkflow
                { workflows := [], actions :=
                    [{ id := 1, workflow_id := 7, action_type := "reboot_universe" },
                     { id := 2, workflow_id := 7, action_type := "notify" }],
                  logs := [] } 7 { event_type := "disk_full" } false).2.logs
            = [] ++ [{ workflow_id := 7, event_data := { event_type := "disk_full" },
                       result := (executeWorkflow
                          { workflows := [], actions :=
                              [{ id := 1, workflow_id := 7, action_type := "reboot_universe" },
                               { id := 2, workflow_id := 7, action_type := "notify" }],
                            logs := [] } 7 { event_type := "disk_full" } false).1 }]) :=
  ⟨by decide, by decide,
    unknownAction_isolated
      { workflows := [], actions :=
          [{ id := 1, workflow_id := 7, action_type := "reboot_universe" },
           { id := 2, workflow_id := 7, action_type := "notify" }],
        logs := [] } 7 { event_type := "disk_full" }
      { id := 1, workflow_id := 7, action_type := "reboot_universe" }
      (by decide) (by decide)⟩

/-- C10: a workflow id with no stored actions, including an id for which
no workflow exists, executes to the empty outcome list; the test endpoint
therefore answers success with an empty result and writes no log row. -/
theorem testWorkflow_no_actions (st : AutoState) (wid : Nat) (tev : Option Event)
    (h0 : wid ≠ 0) (h : ∀ a ∈ st.actions, a.workflow_id ≠ wid) :
    testWorkflowEndpoint st (some wid) tev = (Except.ok [], st) := by
  have hf : fetchActions st.actions wid = [] := by
    unfold fetchActions
    have hnil : st.actions.filter (fun a => a.workflow_id == wid) = [] := by
      rw [List.filter_eq_nil_iff]
      intro a ha
      simp [h a ha]
    rw [hnil]
    rfl
  cases wid with
  | zero => exact absurd rfl h0
  | succ n => simp [testWorkflowEndpoint, executeWorkflow, hf]

/-- Witness for testWorkflow_no_actions: workflow id 99 exists nowhere in
the stored actions, yet the test endpoint returns ok with an empty list
and an unchanged state. -/
theorem testWorkflow_no_actions_witness :
    ((99 : Nat) ≠ 0
        ∧ ∀ a ∈ [({ id := 1, workflow_id := 7, action_type := "notify" } : ActionRow)],
            a.workflow_id ≠ 99)
      ∧ testWorkflowEndpoint
          { workflows := [], actions := [{ id := 1, workflow_id := 7, action_type := "notify" }],
            logs := [] } (some 99) (some { event_type := "disk_full" })
        = (Except.ok [],
           { workflows := [], actions := [{ id := 1, workflow_id := 7, action_type := "notify" }],
             logs := [] }) :=
  ⟨⟨by decide, by decide⟩,
    testWorkflow_no_actions
      { workflows := [], actions := [{ id := 1, workflow_id := 7, action_type := "notify" }],
        logs := [] } 99 (some { event_type := "disk_full" }) (by decide) (by decide)⟩

/-- Outcome list a single non-test execution produces against a given
actions table: doAction mapped over the fetched actions of the workflow. -/
def execOut (acts : List ActionRow) (wid : Nat) (ev : Event) : List ActionResult :=
  (fetchActions acts wid).map (fun a => doAction a ev false)

theorem processWorkflows_eq (ev : Event) (ws : List WorkflowRow) : ∀ st : AutoState,
    processWorkflows ev st ws
      = (ws.map (fun w => (w.id, execOut st.actions w.id ev)),
         { st with logs := st.logs ++ ws.map (fun w =>
             { workflow_id := w.id, event_data := ev,
               result := execOut st.actions w.id ev }) }) := by
  induction ws with
  | nil => intro st; simp [processWorkflows]
  | cons w ws ih =>
    intro st
    have hstep : executeWorkflow st w.id ev false
        = (execOut st.actions w.id ev,
           { st with logs := st.logs ++
               [{ workflow_id := w.id, event_data := ev,
                  result := execOut st.actions w.id ev }] }) := rfl
    show (if evaluateConditions w.conditions ev then
            ((w.id, (executeWorkflow st w.id ev false).1) ::
                (processWorkflows ev (executeWorkflow st w.id ev false).2 ws).1,
              (processWorkflows ev (executeWorkflow st w.id ev false).2 ws).2)
          else processWorkflows ev st ws) = _
    rw [if_pos (show evaluateConditions w.conditions ev = true from rfl), hstep, ih]
    simp

/-- C2: submitting an event with a non-empty event_type executes exactly
the stored workflows whose event_type matches, each of which fires
(conditions are constantly true); the response reports the processed
count and each matching workflow's outcome list, the workflow and action
tables are untouched, and log rows are appended only for the matching
workflows. -/
theorem submitEvent_matching (st : AutoState) (ev : Event) (h : ev.event_type ≠ "") :
    submitEvent st ev
      = Except.ok
          ({ processed := (st.workflows.filter (fun w => w.event_type == ev.event_type)).length,
             results := (st.workflows.filter (fun w => w.event_type == ev.event_type)).map
               (fun w => (w.id, execOut st.actions w.id ev)) },
           { st with logs := st.logs ++ (st.workflows.filter
               (fun w => w.event_type == ev.event_type)).map (fun w =>
                 { workflow_id := w.id, event_data := ev,
                   result := execOut st.actions w.id ev }) }) := by
  unfold submitEvent
  rw [if_neg h]
  dsimp only
  rw [processWorkflows_eq]
  simp

/-- Witness for submitEvent_matching: a disk_full event against one
matching two-action workflow and one non-matching workflow; exactly the
matching workflow runs and exactly one log row is appended. -/
theorem submitEvent_matching_witness :
    ({ event_type := "disk_full", device_id := some "d1" } : Event).event_type ≠ ""
      ∧ submitEvent
          { workflows :=
              [{ id := 1, name := "remediate", event_type := "disk_full" },
               { id := 2, name := "other", event_type := "cpu_high" }],
            actions :=
              [{ id := 1, workflow_id := 1, action_type := "isolate_device" },
               { id := 2, workflow_id := 1, action_type := "notify" },
               { id := 3, workflow_id := 2, action_type := "create_ticket" }],
            logs := [] }
          { event_type := "disk_full", device_id := some "d1" }
        = Except.ok
            ({ processed := 1,
               results := [(1,
                 [{ action := "isolate_device", status := "success", message := "device isolated" },
                  { action := "notify", status := "success", message := "notification sent" }])] },
             { workflows :=
                 [{ id := 1, name := "remediate", event_type := "disk_full" },
                  { id := 2, name := "other", event_type := "cpu_high" }],
               actions :=
                 [{ id := 1, workflow_id := 1, action_type := "isolate_device" },
                  { id := 2, workflow_id := 1, action_type := "notify" },
                  { id := 3, workflow_id := 2, action_type := "create_ticket" }],
               logs := [{ workflow_id := 1,
                          event_data := { event_type := "disk_full", device_id := some "d1" },
                          result :=
                            [{ action := "isolate_device", status := "success",
                               message := "device isolated" },
                             { action := "notify", status := "success",
                               message := "notification sent" }] }] }) := by
  refine ⟨by decide, ?_⟩
  rw [submitEvent_matching _ _ (by decide)]
  rfl

/-- Webhook configuration of the alert service, read from the
environment with the empty string (falsy) as default for each channel. -/
structure AlertConfig where
  ITSM_WEBHOOK_URL : String := ""
  EMAIL_WEBHOOK_URL : String := ""
  SMS_WEBHOOK_URL : String := ""
deriving DecidableEq, Repr

/-- Request body of POST /api/alerts.  The empty string models a missing
or empty device_id or metric (both falsy); value and threshold are absent
when Option.none. -/
structure AlertBody where
  device_id : String
  metric : String
  value : Option Rat
  threshold : Option Rat
  rule_id : Option Nat := none
  suggestion : Option String := none
  description : Option String := none
deriving DecidableEq, Repr

/-- Externally visible actions the alert handler can take, in order.  The
alphabet also contains the actions the spec attributes to the Alert Sink
that would be observable if performed: synthesizing a downstream event
for the workflow engine, and rolling back a persisted alert. -/
inductive AlertEffect where
  | insertAlert (device_id metric : String) (value threshold : Rat)
      (rule_id : Option Nat) (suggestion description : Option String)
  | httpPost (url : String) (delivered : Bool)
  | emitEvent (event_type : String)
  | rollbackAlert
deriving DecidableEq, Repr

/-- True exactly for the effect of synthesizing a downstream event. -/
def AlertEffect.isEmit : AlertEffect → Bool
  | .emitEvent _ => true
  | _ => false

/-- The url of an outbound webhook attempt, if the effect is one. -/
def AlertEffect.attemptUrl : AlertEffect → Option String
  | .httpPost url _ => some url
  | _ => none

/-- One guarded channel dispatch of the alert handler: skipped when the
webhook url is unset (falsy), otherwise attempted; a failed delivery is
caught and logged, so only the attempt and its outcome are recorded. -/
def channelPost (url : String) (net : String → Bool) : List AlertEffect :=
  if url = "" then [] else [AlertEffect.httpPost url (net url)]

/-- Translation of the POST /api/alerts handler: validate the body,
insert the alert row, then attempt the email, SMS and ITSM webhooks in
that order (each guarded by its configuration and its own try/catch), and
answer 202 alert_processed.  The net argument tells which outbound posts
would succeed; dbOk models whether the insert succeeds, and a failed
insert answers 500 with no effect.  Returns the HTTP status with body
keyword and the ordered effect trace. -/
def processAlert (cfg : AlertConfig) (net : String → Bool) (dbOk : Bool) (b : AlertBody) :
    (Nat × String) × List AlertEffect :=
  match b.value, b.threshold with
  | some v, some t =>
    if b.device_id = "" || b.metric = "" then
      ((400, "device_id, metric, value and threshold are required"), [])
    else if dbOk then
      ((202, "alert_processed"),
        AlertEffect.insertAlert b.device_id b.metric v t b.rule_id b.suggestion b.description
          :: (channelPost cfg.EMAIL_WEBHOOK_URL net
              ++ channelPost cfg.SMS_WEBHOOK_URL net
              ++ channelPost cfg.ITSM_WEBHOOK_URL net))
    else
      ((500, "internal_error"), [])
  | _, _ => ((400, "device_id, metric, value and threshold are required"), [])

/-- The notification channels the configuration enables, in dispatch
order (email, SMS, ITSM). -/
def configuredChannels (cfg : AlertConfig) : List String :=
  (if cfg.EMAIL_WEBHOOK_URL = "" then [] else [cfg.EMAIL_WEBHOOK_URL])
    ++ (if cfg.SMS_WEBHOOK_URL = "" then [] else [cfg.SMS_WEBHOOK_URL])
    ++ (if cfg.ITSM_WEBHOOK_URL = "" then [] else [cfg.ITSM_WEBHOOK_URL])

/-- C6: when the alert row persists, the raise call answers 202
alert_processed whatever subset of channel deliveries fails, the insert
is in the trace and is never rolled back, and every configured channel is
attempted regardless of the failures of the others. -/
theorem processAlert_channel_isolation (cfg : AlertConfig) (net : String → Bool)
    (b : AlertBody) (v t : Rat) (hv : b.value = some v) (ht : b.threshold = some t)
    (hd : b.device_id ≠ "") (hm : b.metric ≠ "") :
    (processAlert cfg net true b).1 = (202, "alert_processed")
      ∧ AlertEffect.insertAlert b.device_id b.metric v t b.rule_id b.suggestion b.description
          ∈ (processAlert cfg net true b).2
      ∧ (processAlert cfg net true b).2.filterMap AlertEffect.attemptUrl = configuredChannels cfg
      ∧ AlertEffect.rollbackAlert ∉ (processAlert cfg net true b).2 := by
  have hred : processAlert cfg net true b
      = ((202, "alert_processed"),
          AlertEffect.insertAlert b.device_id b.metric v t b.rule_id b.suggestion b.description
            :: (channelPost cfg.EMAIL_WEBHOOK_URL net
                ++ channelPost cfg.SMS_WEBHOOK_URL net
                ++ channelPost cfg.ITSM_WEBHOOK_URL net)) := by
    unfold processAlert
    rw [hv, ht]
    simp [hd, hm]
  rw [hred]
  refine ⟨rfl, List.mem_cons_self _ _, ?_, ?_⟩
  · unfold channelPost configuredChannels
    simp only [List.filterMap_cons, AlertEffect.attemptUrl, List.filterMap_append]
    by_cases h1 : cfg.EMAIL_WEBHOOK_URL = "" <;>
      by_cases h2 : cfg.SMS_WEBHOOK_URL = "" <;>
        by_cases h3 : cfg.ITSM_WEBHOOK_URL = "" <;>
          simp [h1, h2, h3, AlertEffect.attemptUrl]
  · intro hmem
    rcases List.mem_cons.mp hmem with hbad | hbad
    · cases hbad
    · unfold channelPost at hbad
      rcases List.mem_append.mp hbad with hbad2 | hbad2
      · rcases List.mem_append.mp hbad2 with hbad3 | hbad3 <;>
          [skip; skip] <;> split at hbad3 <;> simp_all
      · split at hbad2 <;> simp_all

/-- Witness for processAlert_channel_isolation: all three channels are
configured and every outbound delivery fails, yet the call answers 202,
the insert stays, and all three channels were attempted. -/
theorem processAlert_channel_isolation_witness :
    (({ device_id := "d1", metric := "cpu", value := some 92, threshold := some 85 } :
        AlertBody).value = some 92
      ∧ ({ device_id := "d1", metric := "cpu", value := some 92, threshold := some 85 } :
          AlertBody).threshold = some 85
      ∧ ({ device_id := "d1", metric := "cpu", value := some 92, threshold := some 85 } :
          AlertBody).device_id ≠ ""
      ∧ ({ device_id := "d1", metric := "cpu", value := some 92, threshold := some 85 } :
          AlertBody).metric ≠ "")
      ∧ ((processAlert
            { ITSM_WEBHOOK_URL := "itsm", EMAIL_WEBHOOK_URL := "mail", SMS_WEBHOOK_URL := "sms" }
            (fun _ => false) true
            { device_id := "d1", metric := "cpu", value := some 92, threshold := some 85 }).1
          = (202, "alert_processed")
        ∧ AlertEffect.insertAlert "d1" "cpu" 92 85 none none none
            ∈ (processAlert
                { ITSM_WEBHOOK_URL := "itsm", EMAIL_WEBHOOK_URL := "mail", SMS_WEBHOOK_URL := "sms" }
                (fun _ => false) true
                { device_id := "d1", metric := "cpu", value := some 92, threshold := some 85 }).2
        ∧ (processAlert
              { ITSM_WEBHOOK_URL := "itsm", EMAIL_WEBHOOK_URL := "mail", SMS_WEBHOOK_URL := "sms" }
              (fun _ => false) true
              { device_id := "d1", metric := "cpu", value := some 92, threshold := some 85
                }).2.filterMap AlertEffect.attemptUrl
          = configuredChannels
              { ITSM_WEBHOOK_URL := "itsm", EMAIL_WEBHOOK_URL := "mail", SMS_WEBHOOK_URL := "sms" }
        ∧ AlertEffect.rollbackAlert
            ∉ (processAlert
                { ITSM_WEBHOOK_URL := "itsm", EMAIL_WEBHOOK_URL := "mail", SMS_WEBHOOK_URL := "sms" }
                (fun _ => false) true
                { device_id := "d1", metric := "cpu", value := some 92, threshold := some 85 }).2) :=
  ⟨⟨rfl, rfl, by decide, by decide⟩,
    processAlert_channel_isolation
      { ITSM_WEBHOOK_URL := "itsm", EMAIL_WEBHOOK_URL := "mail", SMS_WEBHOOK_URL := "sms" }
      (fun _ => false)
      { device_id := "d1", metric := "cpu", value := some 92, threshold := some 85 }
      92 85 rfl rfl (by decide) (by decide)⟩

/-- C5 counterexample: a concrete alert intent that the raise operation
accepts (202 alert_processed, alert row persisted, all three channels
configured and deliverable) whose effect trace contains no synthesized
downstream event at all, contradicting the claim that after persisting
the sink synthesizes an event for the workflow engine. -/
theorem processAlert_no_event_cex :
    (processAlert
        { ITSM_WEBHOOK_URL := "itsm", EMAIL_WEBHOOK_URL := "mail", SMS_WEBHOOK_URL := "sms" }
        (fun _ => true) true
        { device_id := "d1", metric := "cpu", value := some 92, threshold := some 85 }).1
      = (202, "alert_processed")
      ∧ (processAlert
          { ITSM_WEBHOOK_URL := "itsm", EMAIL_WEBHOOK_URL := "mail", SMS_WEBHOOK_URL := "sms" }
          (fun _ => true) true
          { device_id := "d1", metric := "cpu", value := some 92, threshold := some 85
            }).2.all (fun e => !e.isEmit) = true :=
  ⟨rfl, by decide⟩

/-- C5 as amended: the alert handler persists the alert and attempts the
configured notification webhooks, but synthesizes no downstream event for
the workflow engine, for every configuration, delivery outcome, insert
outcome and request body. -/
theorem processAlert_no_event (cfg : AlertConfig) (net : String → Bool) (dbOk : Bool)
    (b : AlertBody) :
    (processAlert cfg net dbOk b).2.all (fun e => !e.isEmit) = true := by
  unfold processAlert
  split
  · split
    · rfl
    · split
      · simp only [channelPost]
        split_ifs <;> simp [AlertEffect.isEmit]
      · rfl
  · rfl
